import Mathlib

/-!
Verification development for the ping-watch backend.

The definitions below are a shallow embedding of the Python sources:
  backend/app/auth.py, backend/app/store.py, backend/app/queue.py,
  backend/app/azurite_sas.py, backend/app/routes/events.py,
  backend/app/routes/sessions.py, backend/app/routes/notifications.py and
  worker/app/inference.py.
Conventions used throughout:
  - UTC instants are modelled as naturals (`Nat`); datetime comparison is `<`.
  - Python `float` fields that are only stored and never computed with
    (duration_seconds, confidence) are modelled as `Int`.
  - Database tables are Lean lists of records; primary-key lookup is the
    first list element with the matching key, and row updates map over the
    list replacing rows whose key matches.
  - SHA-256 (auth.hash_auth_token, notifications._hash_token) is passed in
    as a function argument `hashToken`; every theorem holds for an
    arbitrary hash function.
-/

namespace PingWatch

/-! ## Python string primitives

The Python string methods the sources use, embedded over the character
list of a `String` (the inputs involved are ASCII; `lower`/`upper` use
the ASCII case maps). -/

/-- Python `str.lower()`. -/
def pyLower (s : String) : String := ⟨s.data.map Char.toLower⟩

/-- Python `str.upper()`. -/
def pyUpper (s : String) : String := ⟨s.data.map Char.toUpper⟩

/-- Python whitespace (the characters `str.strip()` removes). -/
def pyIsSpace (c : Char) : Bool :=
  c = ' ' || c = '\t' || c = '\n' || c = '\r' || c = '\x0b' || c = '\x0c'

/-- Python `str.strip()`. -/
def pyStrip (s : String) : String :=
  ⟨((s.data.dropWhile pyIsSpace).reverse.dropWhile pyIsSpace).reverse⟩

/-- Python `str.rstrip(c)` for a single character. -/
def pyRStripChar (s : String) (c : Char) : String :=
  ⟨(s.data.reverse.dropWhile (fun x => x = c)).reverse⟩

/-- Python `str.split(sep, 1)[0]`: the text before the first separator. -/
def pyBeforeChar (s : String) (sep : Char) : String :=
  ⟨s.data.takeWhile (fun x => x ≠ sep)⟩

/-- Worker loop of `pySplitChar`. -/
def splitOnCharAux (sep : Char) : List Char → List Char → List String
  | [], acc => [⟨acc.reverse⟩]
  | c :: cs, acc =>
    if c = sep then ⟨acc.reverse⟩ :: splitOnCharAux sep cs []
    else splitOnCharAux sep cs (c :: acc)

/-- Python `str.split(sep)` for a single-character separator (empty
chunks are kept, and the empty string yields one empty chunk). -/
def pySplitChar (s : String) (sep : Char) : List String :=
  splitOnCharAux sep s.data []

/-- Python `str.startswith(prefixStr)`. -/
def pyStartsWith (s pre : String) : Bool := pre.data.isPrefixOf s.data

/-- Python `str.split()` with no separator: split on whitespace runs and
drop empty chunks. -/
def pySplitWs (s : String) : List String :=
  ((s.data.splitOnP pyIsSpace).map (fun cs => (⟨cs⟩ : String))).filter
    (fun t => t ≠ "")

/-! ## auth.py -/

/-- Source: backend/app/auth.py, `_PROTECTED_WRITE_METHODS`. -/
def protectedWriteMethods : List String := ["POST", "PUT", "PATCH", "DELETE"]

/-- Source: backend/app/auth.py, `_PUBLIC_WRITE_PATHS`. -/
def publicWritePaths : List String :=
  ["/auth/dev/login", "/notifications/telegram/webhook"]

/-- Source: backend/app/auth.py, `_normalized_path` (rstrip of `/`). -/
def normalizedPath (path : String) : String :=
  if path = "/" then path else pyRStripChar path '/'

/-- Source: backend/app/auth.py, `should_authenticate_request`.
`authRequired` stands for the environment flag `AUTH_REQUIRED`. -/
def shouldAuthenticateRequest (authRequired : Bool) (method path : String) : Bool :=
  if !authRequired then false
  else if !(protectedWriteMethods.contains (pyUpper method)) then false
  else if publicWritePaths.contains (normalizedPath path) then false
  else true

/-! ## Data model

Record fields follow backend/app/models.py where the column exists there,
plus the `user_id` columns that backend/app/store.py reads and writes on
sessions, events, devices and link attempts (the models.py in the snapshot
lacks these columns although store.py and the spec data model use them;
they are included here as the spec describes them). -/

structure SessionRec where
  sessionId : String
  deviceId : String
  userId : Option String
  status : String
  startedAt : Nat
  stoppedAt : Option Nat
  analysisPrompt : Option String
  deriving DecidableEq

structure EventRec where
  eventId : String
  sessionId : String
  userId : Option String
  deviceId : String
  status : String
  triggerType : String
  createdAt : Nat
  durationSeconds : Int
  clipUri : String
  clipMime : String
  clipSizeBytes : Int
  clipContainer : Option String
  clipBlobName : Option String
  clipUploadedAt : Option Nat
  clipEtag : Option String
  summary : Option String
  label : Option String
  confidence : Option Int
  inferenceProvider : Option String
  inferenceModel : Option String
  shouldNotify : Option Bool
  alertReason : Option String
  matchedRules : Option (List String)
  detectedEntities : Option (List String)
  detectedActions : Option (List String)
  deriving DecidableEq

structure DeviceRec where
  deviceId : String
  userId : Option String
  label : Option String
  telegramChatId : Option String
  telegramUsername : Option String
  telegramLinkedAt : Option Nat
  createdAt : Nat
  deriving DecidableEq

structure AttemptRec where
  attemptId : String
  deviceId : String
  userId : Option String
  tokenHash : String
  status : String
  createdAt : Nat
  expiresAt : Nat
  linkedAt : Option Nat
  chatId : Option String
  telegramUsername : Option String
  deriving DecidableEq

/-- The database state the claims touch. -/
structure Store where
  sessions : List SessionRec
  events : List EventRec
  devices : List DeviceRec
  attempts : List AttemptRec
  deriving DecidableEq

/-! ## store.py -/

/-- Primary-key lookup: `db.get(SessionModel, session_id)`. -/
def findSession (l : List SessionRec) (id : String) : Option SessionRec :=
  l.find? (fun s => s.sessionId == id)

/-- Primary-key lookup: `db.get(EventModel, event_id)`. -/
def findEvent (l : List EventRec) (id : String) : Option EventRec :=
  l.find? (fun e => e.eventId == id)

/-- Primary-key lookup: `db.get(DeviceModel, device_id)`. -/
def findDevice (l : List DeviceRec) (id : String) : Option DeviceRec :=
  l.find? (fun d => d.deviceId == id)

/-- Primary-key lookup: `db.get(TelegramLinkAttemptModel, attempt_id)`. -/
def findAttemptById (l : List AttemptRec) (id : String) : Option AttemptRec :=
  l.find? (fun a => a.attemptId == id)

/-- Source: store.py, `get_telegram_link_attempt_by_token_hash`. -/
def findAttemptByTokenHash (l : List AttemptRec) (h : String) : Option AttemptRec :=
  l.find? (fun a => a.tokenHash == h)

/-- Row update on the events table: mutate the rows whose key matches. -/
def updateEventRows (l : List EventRec) (id : String) (f : EventRec → EventRec) :
    List EventRec :=
  l.map (fun e => if e.eventId == id then f e else e)

/-- Row update on the sessions table. -/
def updateSessionRows (l : List SessionRec) (id : String) (f : SessionRec → SessionRec) :
    List SessionRec :=
  l.map (fun s => if s.sessionId == id then f s else s)

/-- Row update on the attempts table. -/
def updateAttemptRows (l : List AttemptRec) (id : String) (f : AttemptRec → AttemptRec) :
    List AttemptRec :=
  l.map (fun a => if a.attemptId == id then f a else a)

/-- Row update on the devices table. -/
def updateDeviceRows (l : List DeviceRec) (id : String) (f : DeviceRec → DeviceRec) :
    List DeviceRec :=
  l.map (fun d => if d.deviceId == id then f d else d)

/-- Source: store.py, `get_event` (ownership-scoped primary-key read). -/
def getEvent (store : Store) (eventId : String) (userId : Option String) :
    Option EventRec :=
  match findEvent store.events eventId with
  | none => none
  | some record =>
    match userId with
    | none => some record
    | some u => if record.userId = some u then some record else none

/-- Source: store.py, `get_session`. -/
def getSession (store : Store) (sessionId : String) : Option SessionRec :=
  findSession store.sessions sessionId

/-- Source: store.py, `stop_session`: ownership check, then set
`status="stopped"` and `stopped_at=now`. Returns the refreshed row. -/
def stopSession (store : Store) (sessionId : String) (userId : Option String)
    (now : Nat) : Option (SessionRec × Store) :=
  match findSession store.sessions sessionId with
  | none => none
  | some record =>
    if userId.isSome && userId ≠ record.userId then none
    else
      let stopped : SessionRec → SessionRec :=
        fun s => { s with status := "stopped", stoppedAt := some now }
      some (stopped record,
        { store with sessions := updateSessionRows store.sessions sessionId stopped })

/-- Source: store.py, `create_event`.  `Except.error` models the
`ValueError` raised on an event_id reuse across sessions; `.ok none`
models the `None` return (session missing / cross-tenant / device
mismatch); `.ok (some (record, store))` is the returned row together with
the database after the call.  `freshId` stands for `str(uuid4())`. -/
def createEvent (store : Store) (sessionId deviceId triggerType : String)
    (durationSeconds : Int) (clipUri clipMime : String) (clipSizeBytes : Int)
    (eventId : Option String) (clipContainer clipBlobName : Option String)
    (userId : Option String) (now : Nat) (freshId : String) :
    Except String (Option (EventRec × Store)) :=
  match findSession store.sessions sessionId with
  | none => .ok none
  | some session =>
    if userId.isSome && session.userId ≠ userId then .ok none
    else if session.deviceId ≠ deviceId then .ok none
    else
      let existingConflict : Except String (Option EventRec) :=
        match eventId with
        | none => .ok none
        | some eid =>
          match findEvent store.events eid with
          | none => .ok none
          | some existing =>
            if existing.sessionId ≠ sessionId then
              .error "event_id already exists for a different session"
            else .ok (some existing)
      match existingConflict with
      | .error msg => .error msg
      | .ok (some existing) => .ok (some (existing, store))
      | .ok none =>
        let record : EventRec :=
          { eventId := eventId.getD freshId
            sessionId := sessionId
            userId := session.userId
            deviceId := deviceId
            status := "processing"
            triggerType := triggerType
            createdAt := now
            durationSeconds := durationSeconds
            clipUri := clipUri
            clipMime := clipMime
            clipSizeBytes := clipSizeBytes
            clipContainer := clipContainer
            clipBlobName := clipBlobName
            clipUploadedAt := none
            clipEtag := none
            summary := none
            label := none
            confidence := none
            inferenceProvider := none
            inferenceModel := none
            shouldNotify := none
            alertReason := none
            matchedRules := none
            detectedEntities := none
            detectedActions := none }
        .ok (some (record, { store with events := store.events ++ [record] }))

/-- Source: store.py, `mark_event_clip_uploaded`: stamps
`clip_uploaded_at = now` only when it is still null, and overwrites
`clip_etag` when an etag is provided. Returns the refreshed row. -/
def markEventClipUploaded (store : Store) (eventId : String) (etag : Option String)
    (userId : Option String) (now : Nat) : Option (EventRec × Store) :=
  match getEvent store eventId userId with
  | none => none
  | some record =>
    let f : EventRec → EventRec := fun e =>
      let e := if e.clipUploadedAt = none then { e with clipUploadedAt := some now } else e
      match etag with
      | some t => { e with clipEtag := some t }
      | none => e
    some (f record, { store with events := updateEventRows store.events eventId f })

/-- Source: store.py, `mark_event_clip_uploaded_via_local_api`: switches
`clip_container` to `"local"` and `clip_uri` to `local://` plus the blob
name; no-op when already in that state. -/
def markEventClipUploadedViaLocalApi (store : Store) (eventId : String)
    (clipBlobName : String) (userId : Option String) : Option (EventRec × Store) :=
  match getEvent store eventId userId with
  | none => none
  | some record =>
    let localUri := "local://" ++ clipBlobName
    let f : EventRec → EventRec := fun e =>
      { e with clipContainer := some "local", clipUri := localUri }
    some (f record, { store with events := updateEventRows store.events eventId f })

/-- Source: store.py, `list_events`.  Filters by `user_id` when given and
then by `session_id` when given.  (The SQL `ORDER BY created_at` is not
modelled; no claim depends on row order.) -/
def listEvents (store : Store) (sessionId userId : Option String) : List EventRec :=
  let rows := store.events
  let rows :=
    match userId with
    | none => rows
    | some u => rows.filter (fun e => e.userId = some u)
  match sessionId with
  | none => rows
  | some sid => if sid = "" then rows else rows.filter (fun e => e.sessionId == sid)

/-- Source: store.py, `delete_processing_events_for_session`: bulk delete
of rows matching session, status `processing`, and (when given) user;
returns the deleted-row count. -/
def deleteProcessingEventsForSession (store : Store) (sessionId : String)
    (userId : Option String) : Store × Nat :=
  let matchRow : EventRec → Bool := fun e =>
    e.sessionId == sessionId && e.status == "processing" &&
      (match userId with
       | none => true
       | some u => e.userId == some u)
  let deleted := store.events.filter matchRow
  ({ store with events := store.events.filter (fun e => !(matchRow e)) }, deleted.length)

/-- Source: store.py, `update_event_summary`: terminal writeback setting
all analysis fields and `status="done"`. -/
def updateEventSummary (store : Store) (eventId : String) (summary : String)
    (label : Option String) (confidence : Option Int)
    (inferenceProvider inferenceModel : Option String)
    (shouldNotify : Option Bool) (alertReason : Option String)
    (matchedRules detectedEntities detectedActions : Option (List String)) :
    Option (EventRec × Store) :=
  match findEvent store.events eventId with
  | none => none
  | some record =>
    let f : EventRec → EventRec := fun e =>
      { e with
        summary := some summary
        label := label
        confidence := confidence
        inferenceProvider := inferenceProvider
        inferenceModel := inferenceModel
        shouldNotify := shouldNotify
        alertReason := alertReason
        matchedRules := matchedRules
        detectedEntities := detectedEntities
        detectedActions := detectedActions
        status := "done" }
    some (f record, { store with events := updateEventRows store.events eventId f })

/-- Source: store.py, `mark_telegram_link_attempt_expired`. -/
def markTelegramLinkAttemptExpired (store : Store) (attemptId : String) : Store :=
  { store with
    attempts := updateAttemptRows store.attempts attemptId
      (fun a => { a with status := "expired" }) }

/-- Source: store.py, `mark_telegram_link_attempt_linked`: sets
`status="linked"`, stamps `linked_at`, records `chat_id` and username. -/
def markTelegramLinkAttemptLinked (store : Store) (attemptId : String)
    (chatId : String) (username : Option String) (now : Nat) : Store :=
  { store with
    attempts := updateAttemptRows store.attempts attemptId
      (fun a =>
        { a with
          status := "linked"
          linkedAt := some now
          chatId := some chatId
          telegramUsername := username }) }

/-- Source: store.py, `link_device_telegram_chat`: upserts the device row
and records the chat binding.  Only the devices table changes. -/
def linkDeviceTelegramChat (store : Store) (deviceId chatId : String)
    (username : Option String) (userId : Option String) (now : Nat) : Store :=
  match findDevice store.devices deviceId with
  | none =>
    let record : DeviceRec :=
      { deviceId := deviceId
        userId := userId
        label := none
        telegramChatId := some chatId
        telegramUsername := username
        telegramLinkedAt := some now
        createdAt := now }
    { store with devices := store.devices ++ [record] }
  | some existing =>
    let f : DeviceRec → DeviceRec := fun d =>
      let d :=
        if userId.isSome && d.userId = none then { d with userId := userId } else d
      { d with
        telegramChatId := some chatId
        telegramUsername := username
        telegramLinkedAt := some now }
    let _ := existing
    { store with devices := updateDeviceRows store.devices deviceId f }

/-! ## queue.py -/

/-- One pending job of the `clip_uploaded` queue.  `payload` models
`job.args[0]`: `none` when the args are empty or the first arg is not a
dict, `some none` for a dict without a `session_id` key, and
`some (some s)` for a dict whose `session_id` is `s`. -/
structure Job where
  jobId : String
  payload : Option (Option String)
  deriving DecidableEq

/-- Source: queue.py, `cancel_session_jobs` (the reachable-queue path):
scan the pending jobs, cancel every one whose dict payload has
`session_id == sid`, and return the count.  A canceled job leaves the
pending set; the others stay pending in order.  (When the queue broker is
unreachable the Python function catches the error and returns 0 with no
job canceled; that external-failure path is outside this model.)
One loop iteration: a matching job is canceled and counted, the others
stay pending. -/
def cancelStep (sid : String) (acc : List Job × Nat) (job : Job) : List Job × Nat :=
  match job.payload with
  | some (some s) =>
    if s = sid then (acc.1, acc.2 + 1) else (acc.1 ++ [job], acc.2)
  | _ => (acc.1 ++ [job], acc.2)

/-- Source: queue.py, `cancel_session_jobs`: the loop over the pending
jobs, started from the empty kept-list and a zero count. -/
def cancelSessionJobs (jobs : List Job) (sid : String) : List Job × Nat :=
  jobs.foldl (cancelStep sid) ([], 0)

/-- Source: queue.py, `enqueue_inference_job` signature: the keyword
parameters the function accepts. -/
def enqueueInferenceJobParams : List String :=
  ["event_id", "session_id", "clip_blob_name", "clip_container",
   "analysis_prompt", "queue"]

/-- Source: routes/events.py, `finalize_upload_endpoint`: the keyword
arguments the endpoint passes in its `enqueue_inference_job(...)` call. -/
def finalizeEnqueueKwargs : List String :=
  ["event_id", "session_id", "device_id", "clip_blob_name",
   "clip_container", "clip_mime", "analysis_prompt"]

/-- Python keyword binding: a call with keyword arguments raises
`TypeError` before the callee body runs unless every passed keyword is an
accepted parameter name. -/
def kwargsBindOk (passed accepted : List String) : Bool :=
  passed.all (fun k => accepted.contains k)

/-! ## azurite_sas.py -/

/-- Source: azurite_sas.py, `guess_extension`. -/
def guessExtension (mimeType : String) : String :=
  let normalized := pyStrip (pyBeforeChar (pyLower mimeType) ';')
  if normalized = "video/webm" then ".webm"
  else if normalized = "video/mp4" then ".mp4"
  else ""

/-- Source: azurite_sas.py, `build_blob_name`. -/
def buildBlobName (sessionId eventId mimeType : String) : String :=
  "sessions/" ++ sessionId ++ "/events/" ++ eventId ++ guessExtension mimeType

/-- Source: azurite_sas.py, `_build_shared_key_string_to_sign`: the
canonicalized-headers block. -/
def sharedKeyCanonicalizedHeaders (xMsDate xMsVersion : String) : String :=
  String.intercalate "\n"
    ["x-ms-date:" ++ xMsDate, "x-ms-version:" ++ xMsVersion, ""]

/-- Source: azurite_sas.py, `_build_shared_key_string_to_sign`: the
Content-Length position, empty when the value is 0. -/
def sharedKeyContentLengthValue (contentLength : Int) : String :=
  if contentLength = 0 then "" else toString contentLength

/-- Source: azurite_sas.py, `_build_shared_key_string_to_sign`: the list
joined with newlines to form the string to sign. -/
def sharedKeyStringToSignLines (method : String) (contentLength : Int)
    (canonicalizedResource xMsDate xMsVersion : String) : List String :=
  [pyUpper method,
   "",
   "",
   sharedKeyContentLengthValue contentLength,
   "",
   "",
   "",
   "",
   "",
   "",
   "",
   "",
   sharedKeyCanonicalizedHeaders xMsDate xMsVersion ++ canonicalizedResource]

/-- Source: azurite_sas.py, `_build_shared_key_string_to_sign`. -/
def buildSharedKeyStringToSign (method : String) (contentLength : Int)
    (canonicalizedResource xMsDate xMsVersion : String) : String :=
  String.intercalate "\n"
    (sharedKeyStringToSignLines method contentLength canonicalizedResource
      xMsDate xMsVersion)

/-! ## Filesystem paths (routes/events.py relay upload)

An absolute POSIX path is a list of components below the filesystem root.
`Path.resolve()` (without symlinks) removes empty, `.` and `..` segments;
`Path.relative_to(root)` on two resolved paths succeeds exactly when the
root components lead the target components. -/

/-- One step of lexical path normalization. -/
def normStep (acc : List String) (c : String) : List String :=
  if c = "" || c = "." then acc
  else if c = ".." then acc.dropLast
  else acc ++ [c]

/-- Lexical normalization of a component list, as `Path.resolve()` does
for a path without symlinks (`..` at the root stays at the root). -/
def normalizeComps (cs : List String) : List String :=
  cs.foldl normStep []

/-- `(upload_root / blob_name).resolve()`: a blob name starting with `/`
replaces the root (pathlib join semantics); otherwise the blob segments
are appended to the root before normalization. -/
def resolveJoin (root : List String) (blobName : String) : List String :=
  if pyStartsWith blobName "/" then normalizeComps (pySplitChar blobName '/')
  else normalizeComps (root ++ pySplitChar blobName '/')

/-- A resolved root directory: no empty, `.` or `..` components. -/
def rootResolved (root : List String) : Prop :=
  ∀ c ∈ root, c ≠ "" ∧ c ≠ "." ∧ c ≠ ".."

/-! ## routes/events.py -/

/-- The blob name the relay upload uses:
`record.clip_blob_name or build_blob_name(...)` (Python `or`, so an empty
stored name also falls back to the computed name). -/
def uploadBlobName (record : EventRec) : String :=
  match record.clipBlobName with
  | some s => if s = "" then buildBlobName record.sessionId record.eventId record.clipMime else s
  | none => buildBlobName record.sessionId record.eventId record.clipMime

/-- Outcome of `PUT /events/{id}/upload`: the HTTP status, the file
writes performed (resolved path and bytes), and the database after the
request.  (The 201 response also carries an etag built from the md5 of
the body; no claim depends on it.) -/
structure UploadOutcome where
  status : Nat
  writes : List (List String × String)
  store : Store
  deriving DecidableEq

/-- Source: routes/events.py, `upload_clip_endpoint`: resolve the local
upload root, join the event blob name, require the canonicalized result
to stay under the root (else 400 before any byte is written), write the
body, and flip the event to local mode. -/
def uploadClipEndpoint (root : List String) (store : Store) (eventId : String)
    (body : String) : UploadOutcome :=
  match getEvent store eventId none with
  | none => { status := 404, writes := [], store := store }
  | some record =>
    let blobName := uploadBlobName record
    let target := resolveJoin root blobName
    if root.isPrefixOf target then
      match markEventClipUploadedViaLocalApi store eventId blobName none with
      | none => { status := 404, writes := [(target, body)], store := store }
      | some (_, store₁) => { status := 201, writes := [(target, body)], store := store₁ }
    else
      { status := 400, writes := [], store := store }

/-- The request body of `POST /events/upload/initiate`. -/
structure InitiatePayload where
  eventId : Option String
  sessionId : String
  deviceId : String
  triggerType : String
  durationSeconds : Int
  clipMime : String
  clipSizeBytes : Int
  deriving DecidableEq

/-- The cloud upload target data the endpoint needs from the Azurite
config once container init has succeeded (endpoint and container name;
`sasQuery` abstracts `generate_blob_upload_sas`, whose HMAC signature no
claim depends on). -/
structure CloudTarget where
  endpoint : String
  container : String
  deriving DecidableEq

/-- Response of `POST /events/upload/initiate`. -/
inductive InitiateResult where
  | notFound
  | conflict
  | ok (event : EventRec) (uploadUrl blobUrl : String) (expiresAt : Nat)
  deriving DecidableEq

/-- HTTP status of an initiate response. -/
def InitiateResult.status : InitiateResult → Nat
  | .notFound => 404
  | .conflict => 409
  | .ok _ _ _ _ => 200

/-- The upload target data initiate returns and stores on the event. -/
structure UploadTarget where
  uploadUrl : String
  blobUrl : String
  clipContainer : String
  clipBlobName : String
  clipUri : String
  expiresAt : Nat
  deriving DecidableEq

/-- Source: routes/events.py, `initiate_upload_endpoint`, lines 128-159:
the chosen upload target.  The relay target points back at this API;
the cloud target carries the SAS query on the blob URL. -/
def initiateUploadInfo (eventId blobName baseUrl : String)
    (cloud : Option CloudTarget) (sasQuery : String → String)
    (sasExpiry now : Nat) : UploadTarget :=
  match cloud with
  | none =>
    let localUploadUrl :=
      pyRStripChar baseUrl '/' ++ "/events/" ++ eventId ++ "/upload"
    { uploadUrl := localUploadUrl
      blobUrl := localUploadUrl
      clipContainer := "local"
      clipBlobName := blobName
      clipUri := "local://" ++ blobName
      expiresAt := now + 900 }
  | some c =>
    let blobUrl := c.endpoint ++ "/" ++ c.container ++ "/" ++ blobName
    { uploadUrl := blobUrl ++ "?" ++ sasQuery blobName
      blobUrl := blobUrl
      clipContainer := c.container
      clipBlobName := blobName
      clipUri := blobUrl
      expiresAt := sasExpiry }

/-- Source: routes/events.py, `initiate_upload_endpoint`.  `cloud` is the
Azurite config after the auto-create fallback (`none` when the cloud env
is missing or container init failed, which selects the relay target);
`sasQuery`/`sasExpiry` abstract `generate_blob_upload_sas`; `freshId`
stands for `str(uuid4())`.  A Python-falsy (empty) `event_id` also mints
a fresh id. -/
def initiateUploadEndpoint (store : Store) (payload : InitiatePayload)
    (baseUrl : String) (cloud : Option CloudTarget)
    (sasQuery : String → String) (sasExpiry : Nat) (now : Nat)
    (freshId : String) : InitiateResult × Store :=
  let eventId :=
    match payload.eventId with
    | some s => if s = "" then freshId else s
    | none => freshId
  let blobName := buildBlobName payload.sessionId eventId payload.clipMime
  let info := initiateUploadInfo eventId blobName baseUrl cloud sasQuery sasExpiry now
  match createEvent store payload.sessionId payload.deviceId payload.triggerType
      payload.durationSeconds info.clipUri payload.clipMime payload.clipSizeBytes
      (some eventId) (some info.clipContainer) (some info.clipBlobName) none now
      freshId with
  | .error _ => (.conflict, store)
  | .ok none => (.notFound, store)
  | .ok (some (record, store₁)) =>
    (.ok record info.uploadUrl info.blobUrl info.expiresAt, store₁)

/-- Response of `POST /events/{id}/upload/finalize`. -/
inductive FinalizeResult where
  | notFound
  | ok (event : EventRec)
  | typeError
  deriving DecidableEq

/-- HTTP status of a finalize response (an uncaught `TypeError` in the
handler surfaces as HTTP 500). -/
def FinalizeResult.status : FinalizeResult → Nat
  | .notFound => 404
  | .ok _ => 200
  | .typeError => 500

/-- Source: routes/events.py, `finalize_upload_endpoint`: stamp
`clip_uploaded_at` via `mark_event_clip_uploaded`, look up the session's
analysis prompt, then call
`enqueue_inference_job(event_id=..., session_id=..., device_id=...,
clip_blob_name=..., clip_container=..., clip_mime=..., analysis_prompt=...)`.
Python binds that call against the `enqueue_inference_job` signature in
queue.py before the callee's own try/except can run, so the call raises
`TypeError` whenever a passed keyword is not an accepted parameter. -/
def finalizeUploadEndpoint (store : Store) (eventId : String)
    (etag : Option String) (now : Nat) : FinalizeResult × Store :=
  match markEventClipUploaded store eventId etag none now with
  | none => (.notFound, store)
  | some (record, store₁) =>
    let _analysisPrompt := (getSession store₁ record.sessionId).bind
      (fun s => s.analysisPrompt)
    if kwargsBindOk finalizeEnqueueKwargs enqueueInferenceJobParams then
      (.ok record, store₁)
    else
      (.typeError, store₁)

/-- Source: routes/events.py, `list_events_endpoint`: the handler passes
only the `session_id` query parameter to `list_events`; it never resolves
a caller and never passes a `user_id`. -/
def listEventsEndpoint (store : Store) (sessionId : Option String) : List EventRec :=
  listEvents store sessionId none

/-- Response of `POST /events/{id}/summary`. -/
inductive SummaryResult where
  | notFound
  | ok (event : EventRec)
  deriving DecidableEq

/-- HTTP status of a summary response. -/
def SummaryResult.status : SummaryResult → Nat
  | .notFound => 404
  | .ok _ => 200

/-- Source: routes/events.py, `update_event_summary_endpoint`. -/
def updateEventSummaryEndpoint (store : Store) (eventId : String)
    (summary : String) (label : Option String) (confidence : Option Int)
    (inferenceProvider inferenceModel : Option String)
    (shouldNotify : Option Bool) (alertReason : Option String)
    (matchedRules detectedEntities detectedActions : Option (List String)) :
    SummaryResult × Store :=
  match updateEventSummary store eventId summary label confidence
      inferenceProvider inferenceModel shouldNotify alertReason matchedRules
      detectedEntities detectedActions with
  | none => (.notFound, store)
  | some (record, store₁) => (.ok record, store₁)

/-! ## routes/sessions.py -/

/-- Response of `POST /sessions/force-stop`. -/
inductive ForceStopResult where
  | notFound
  | ok (session : SessionRec) (droppedProcessingEvents droppedQueuedJobs : Nat)
  deriving DecidableEq

/-- HTTP status of a force-stop response. -/
def ForceStopResult.status : ForceStopResult → Nat
  | .notFound => 404
  | .ok _ _ _ => 200

/-- Source: routes/sessions.py, `force_stop_session_endpoint`: stop the
session (ownership-checked), cancel the session's queued jobs, delete its
still-processing events scoped to the caller, and report both counts.
`userId` is the resolved `get_request_user_id` value (`none` when auth is
disabled). -/
def forceStopSessionEndpoint (store : Store) (jobs : List Job)
    (sessionId : String) (userId : Option String) (now : Nat) :
    ForceStopResult × Store × List Job :=
  match stopSession store sessionId userId now with
  | none => (.notFound, store, jobs)
  | some (record, store₁) =>
    let cancelResult := cancelSessionJobs jobs sessionId
    let deleteResult := deleteProcessingEventsForSession store₁ sessionId userId
    (.ok record deleteResult.2 cancelResult.2, deleteResult.1, cancelResult.1)

/-! ## routes/notifications.py -/

/-- JSON values as the webhook receives them. -/
inductive Json where
  | null
  | bool (b : Bool)
  | num (n : Int)
  | str (s : String)
  | arr (xs : List Json)
  | obj (fields : List (String × Json))

/-- `dict.get(key)` on a JSON object body. -/
def objGet (fields : List (String × Json)) (key : String) : Option Json :=
  (fields.find? (fun kv => kv.1 == key)).map (fun kv => kv.2)

/-- Python truthiness of a JSON value. -/
def pyTruthy : Json → Bool
  | .null => false
  | .bool b => b
  | .num n => n != 0
  | .str s => s != ""
  | .arr xs => !xs.isEmpty
  | .obj fs => !fs.isEmpty

/-- Python `x or y` over optional JSON values (`none` is an absent key,
which is falsy). -/
def pyOr (a b : Option Json) : Option Json :=
  match a with
  | some v => if pyTruthy v then some v else b
  | none => b

/-- Python `str()` of the JSON values a Telegram `chat.id` can hold (the
chat id is a number or string in practice; the remaining constructors get
a placeholder rendering that no claim depends on). -/
def pyStr : Json → String
  | .null => "None"
  | .bool b => if b then "True" else "False"
  | .num n => toString n
  | .str s => s
  | .arr _ => "<list>"
  | .obj _ => "<dict>"

/-- A JSON value read where the Python code expects an optional string
(usernames, message text). -/
def jsonAsStr : Option Json → Option String
  | some (.str s) => some s
  | _ => none

/-- Source: notifications.py, `_parse_telegram_command`: strip, split on
whitespace, lowercase the part before an `@`, and return
`(command?, args)`. -/
def parseTelegramCommand (text : Option String) : Option String × List String :=
  match text with
  | none => (none, [])
  | some t =>
    if t = "" then (none, [])
    else
      let parts := pySplitWs (pyStrip t)
      match parts with
      | [] => (none, [])
      | first :: rest =>
        let command := pyLower (pyBeforeChar first '@')
        if pyStartsWith command "/" then (some command, rest)
        else (none, first :: rest)

/-- Source: notifications.py, `_process_start_token`, lines 274-276: mark
a pending attempt past its deadline expired and re-read it; otherwise
keep the attempt unchanged. -/
def lazyExpire (store : Store) (attempt : AttemptRec) (now : Nat) :
    AttemptRec × Store :=
  if attempt.status = "pending" && attempt.expiresAt < now then
    let store₁ := markTelegramLinkAttemptExpired store attempt.attemptId
    ((findAttemptById store₁.attempts attempt.attemptId).getD attempt, store₁)
  else (attempt, store)

/-- Source: notifications.py, `_process_start_token`: look the attempt up
by token hash; lazily expire a pending attempt past its deadline; an
already-linked attempt short-circuits (optionally messaging the user) with
no state change; a non-pending attempt is refused; otherwise link the
device chat and mark the attempt linked.  The boolean mirrors the Python
return value; user-facing Telegram sends are HTTP side effects with no
stored state and are not modelled. -/
def processStartToken (hashToken : String → String) (store : Store)
    (linkToken : String) (chatIdText : String) (username : Option String)
    (now : Nat) : Bool × Store :=
  match findAttemptByTokenHash store.attempts (hashToken linkToken) with
  | none => (false, store)
  | some attempt =>
    let es := lazyExpire store attempt now
    if es.1.status = "linked" then (true, es.2)
    else if es.1.status ≠ "pending" then (false, es.2)
    else
      let store₂ := linkDeviceTelegramChat es.2 es.1.deviceId chatIdText
        username none now
      (true, markTelegramLinkAttemptLinked store₂ es.1.attemptId
        chatIdText username now)

/-- Source: notifications.py, `_process_telegram_message`: extract the
chat id (absent or JSON null counts as missing), parse the `/start`
command and its token, then run `_process_start_token`. -/
def processTelegramMessage (hashToken : String → String) (store : Store)
    (message : List (String × Json)) (now : Nat) : Bool × Store :=
  let chat :=
    match objGet message "chat" with
    | some (.obj c) => c
    | _ => []
  let sender :=
    match objGet message "from" with
    | some (.obj s) => s
    | _ => []
  match objGet chat "id" with
  | none => (false, store)
  | some .null => (false, store)
  | some chatIdVal =>
    let chatIdText := pyStr chatIdVal
    let username := jsonAsStr (pyOr (objGet sender "username") (objGet chat "username"))
    let parsed := parseTelegramCommand (jsonAsStr (objGet message "text"))
    if parsed.1 ≠ some "/start" then (false, store)
    else
      match parsed.2 with
      | [] => (false, store)
      | firstArg :: _ =>
        let linkToken := pyStrip firstArg
        if linkToken = "" then (false, store)
        else processStartToken hashToken store linkToken chatIdText username now

/-- Environment of the webhook endpoint: `TELEGRAM_BOT_TOKEN` and
`TELEGRAM_WEBHOOK_SECRET` (raw environment strings, possibly empty). -/
structure WebhookCfg where
  botToken : String
  webhookSecret : String
  deriving DecidableEq

/-- The webhook request: the `x-telegram-bot-api-secret-token` header and
the body (`none` when `request.json()` raises on invalid JSON). -/
structure WebhookRequest where
  secretHeader : Option String
  body : Option Json

/-- Response of `POST /notifications/telegram/webhook`. -/
inductive WebhookResult where
  | okTrue
  | unauthorized
  deriving DecidableEq

/-- HTTP status of a webhook response. -/
def WebhookResult.status : WebhookResult → Nat
  | .okTrue => 200
  | .unauthorized => 401

/-- The `message or edited_message` dispatch inside `telegram_webhook`:
only a message object is processed (with user feedback enabled); anything
else is acknowledged unchanged. -/
def webhookHandleMessageValue (hashToken : String → String) (store : Store)
    (now : Nat) : Option Json → WebhookResult × Store
  | some (.obj message) =>
    (.okTrue, (processTelegramMessage hashToken store message now).2)
  | _ => (.okTrue, store)

/-- The body handling of `telegram_webhook` after the token and secret
gates: invalid JSON, a non-object body, and a body whose
`message`/`edited_message` is no object are acknowledged unchanged. -/
def webhookProcessBody (hashToken : String → String) (store : Store)
    (now : Nat) : Option Json → WebhookResult × Store
  | none => (.okTrue, store)
  | some (.obj fields) =>
    webhookHandleMessageValue hashToken store now
      (pyOr (objGet fields "message") (objGet fields "edited_message"))
  | some _ => (.okTrue, store)

/-- Source: notifications.py, `telegram_webhook`: missing bot token skips
processing; a configured secret must match the header (else 401); then
the body is processed per `webhookProcessBody`. -/
def telegramWebhook (hashToken : String → String) (cfg : WebhookCfg)
    (req : WebhookRequest) (store : Store) (now : Nat) :
    WebhookResult × Store :=
  let token := pyStrip cfg.botToken
  if token = "" then (.okTrue, store)
  else
    let expectedSecret := pyStrip cfg.webhookSecret
    if expectedSecret ≠ "" &&
        (pyStrip (req.secretHeader.getD "") ≠ expectedSecret) then
      (.unauthorized, store)
    else
      webhookProcessBody hashToken store now req.body

/-- The `message or edited_message` value carries no message object. -/
def webhookMessageMissing : Option Json → Bool
  | some (.obj _) => false
  | _ => true

/-- A request body is malformed for the webhook when it is not valid
JSON, not a JSON object, or carries no `message`/`edited_message`
object. -/
def webhookBodyMalformed : Option Json → Bool
  | none => true
  | some (.obj fields) =>
    webhookMessageMissing
      (pyOr (objGet fields "message") (objGet fields "edited_message"))
  | some _ => true

/-- The operations that touch a Telegram link attempt after creation:
processing a `/start <token>` message (webhook push with feedback, or the
`getUpdates` pull with feedback suppressed — both run
`_process_start_token` with the same database transitions), and the lazy
expiry check of `GET /notifications/telegram/link/status`. -/
inductive LinkOp where
  | startToken (linkToken chatIdText : String) (username : Option String) (now : Nat)
  | statusPoll (deviceId attemptId : String) (now : Nat)
  deriving DecidableEq

/-- The instant at which a link operation runs. -/
def LinkOp.now : LinkOp → Nat
  | .startToken _ _ _ n => n
  | .statusPoll _ _ n => n

/-- Source: notifications.py, `telegram_link_status` (the database
transition only): for a registered device and a matching pending attempt
past its deadline, mark the attempt expired.  The `getUpdates` message
processing the endpoint also drives is the `startToken` operation. -/
def telegramLinkStatusStep (store : Store) (deviceId attemptId : String)
    (now : Nat) : Store :=
  match findDevice store.devices deviceId with
  | none => store
  | some _ =>
    match findAttemptById store.attempts attemptId with
    | none => store
    | some attempt =>
      if attempt.deviceId ≠ deviceId then store
      else if attempt.status = "linked" then store
      else if attempt.status = "pending" && attempt.expiresAt < now then
        markTelegramLinkAttemptExpired store attempt.attemptId
      else store

/-- One step of the link-attempt state machine. -/
def stepLink (hashToken : String → String) (store : Store) : LinkOp → Store
  | .startToken linkToken chatIdText username now =>
    (processStartToken hashToken store linkToken chatIdText username now).2
  | .statusPoll deviceId attemptId now =>
    telegramLinkStatusStep store deviceId attemptId now

/-- What one step may do to the link attempt `a` it finds as `a'`
afterwards: linked and expired attempts are frozen, nothing returns to
pending, a pending attempt that became linked had a chat id recorded and
`linked_at` stamped at the step's instant, and one that became expired
was past its deadline at the step's instant. -/
def attemptStepOk (a a' : AttemptRec) (now : Nat) : Prop :=
  (a.status = "linked" → a' = a) ∧
  (a.status = "expired" → a' = a) ∧
  (a'.status = "pending" → a' = a) ∧
  (a.status = "pending" → a'.status = "linked" →
    a'.chatId.isSome ∧ a'.linkedAt = some now) ∧
  (a.status = "pending" → a'.status = "expired" → a.expiresAt < now)

/-! ## worker/app/inference.py -/

/-- Source: worker/app/inference.py, `SUPPORTED_VIDEO_MIME_TYPES`. -/
def supportedVideoMimeTypes : List String :=
  ["video/mp4", "video/webm", "video/quicktime", "video/mov"]

/-- The stripped base MIME `_normalize_video_mime` computes:
lowercase, trim, drop everything from the first `;`. -/
def stripBaseMime (clipMime : Option String) : String :=
  let rawMime := pyLower (pyStrip (clipMime.getD ""))
  pyStrip (pyBeforeChar rawMime ';')

/-- Source: worker/app/inference.py, `_normalize_video_mime`. -/
def normalizeVideoMime (clipMime : Option String) : String :=
  let rawMime := pyLower (pyStrip (clipMime.getD ""))
  if rawMime = "" then "video/webm"
  else
    let baseMime := stripBaseMime clipMime
    if supportedVideoMimeTypes.contains baseMime then baseMime
    else if pyStartsWith baseMime "video/" then baseMime
    else "video/webm"

/-! ## main.py request dispatch

main.py builds the FastAPI app by adding the CORS middleware and a
request-logging middleware and including the sessions, devices, events and
notifications routers.  Neither registered middleware inspects the
Authorization header and no dependency performs authentication, so every
request reaches its route handler unconditionally; the events handlers
below never call `get_request_user_id` or `authenticate_request`.  The
wrappers take the incoming HTTP request to make that explicit: the
handler result does not depend on `authorization`. -/

/-- An incoming HTTP request as the middleware stack sees it. -/
structure HttpRequest where
  method : String
  path : String
  authorization : Option String
  deriving DecidableEq

/-- App dispatch of `POST /events/upload/initiate` (routes/events.py,
`initiate_upload_endpoint`): the request's Authorization header is never
consulted. -/
def appPostEventsUploadInitiate (req : HttpRequest) (store : Store)
    (payload : InitiatePayload) (baseUrl : String) (cloud : Option CloudTarget)
    (sasQuery : String → String) (sasExpiry : Nat) (now : Nat)
    (freshId : String) : InitiateResult × Store :=
  let _ := req
  initiateUploadEndpoint store payload baseUrl cloud sasQuery sasExpiry now freshId

/-- App dispatch of `PUT /events/{id}/upload` (routes/events.py,
`upload_clip_endpoint`): no authentication happens before or inside the
handler. -/
def appPutEventsUpload (req : HttpRequest) (root : List String) (store : Store)
    (eventId : String) (body : String) : UploadOutcome :=
  let _ := req
  uploadClipEndpoint root store eventId body

/-- App dispatch of `POST /events/{id}/upload/finalize` (routes/events.py,
`finalize_upload_endpoint`): no authentication happens before or inside
the handler. -/
def appPostEventsUploadFinalize (req : HttpRequest) (store : Store)
    (eventId : String) (etag : Option String) (now : Nat) :
    FinalizeResult × Store :=
  let _ := req
  finalizeUploadEndpoint store eventId etag now

/-- App dispatch of `POST /events/{id}/summary` (routes/events.py,
`update_event_summary_endpoint`): no authentication happens before or
inside the handler. -/
def appPostEventsSummary (req : HttpRequest) (store : Store) (eventId : String)
    (summary : String) : SummaryResult × Store :=
  let _ := req
  updateEventSummaryEndpoint store eventId summary none none none none none none
    none none none

/-- App dispatch of `GET /events` (routes/events.py,
`list_events_endpoint`): the handler receives only the `session_id` query
parameter; it never resolves the caller. -/
def appGetEvents (req : HttpRequest) (store : Store)
    (sessionId : Option String) : List EventRec :=
  let _ := req
  listEventsEndpoint store sessionId

/-! ## Concrete fixtures for the claim evaluations and witnesses -/

/-- An event row freshly reserved by initiate (fields as `create_event`
sets them). -/
def mkProcessingEvent (eventId sessionId : String) (userId : Option String)
    (deviceId : String) (clipBlobName : Option String) : EventRec :=
  { eventId := eventId
    sessionId := sessionId
    userId := userId
    deviceId := deviceId
    status := "processing"
    triggerType := "motion"
    createdAt := 1
    durationSeconds := 4
    clipUri := "local://clip"
    clipMime := "video/webm"
    clipSizeBytes := 1024
    clipContainer := some "local"
    clipBlobName := clipBlobName
    clipUploadedAt := none
    clipEtag := none
    summary := none
    label := none
    confidence := none
    inferenceProvider := none
    inferenceModel := none
    shouldNotify := none
    alertReason := none
    matchedRules := none
    detectedEntities := none
    detectedActions := none }

/-- An active session row. -/
def mkActiveSession (sessionId deviceId : String) (userId : Option String) :
    SessionRec :=
  { sessionId := sessionId
    deviceId := deviceId
    userId := userId
    status := "active"
    startedAt := 0
    stoppedAt := none
    analysisPrompt := none }

/-- C1 fixture: a database with one session and one processing event. -/
def storeC1 : Store :=
  { sessions := [mkActiveSession "sess-1" "dev-1" (some "user-a")]
    events := [mkProcessingEvent "evt-1" "sess-1" (some "user-a") "dev-1" (some "clips/evt-1.webm")]
    devices := []
    attempts := [] }

/-- C1 fixture: an unauthenticated request. -/
def reqNoAuth (method path : String) : HttpRequest :=
  { method := method, path := path, authorization := none }

/-- C1 fixture: an initiate request for the existing session. -/
def payloadC1 : InitiatePayload :=
  { eventId := some "evt-new"
    sessionId := "sess-1"
    deviceId := "dev-1"
    triggerType := "motion"
    durationSeconds := 3
    clipMime := "video/webm"
    clipSizeBytes := 12 }

/-- C1 fixture: the resolved local upload root. -/
def rootC1 : List String := ["srv", "uploads"]

/-- C2 fixture: user A's event in user A's session; no row belongs to
user B. -/
def eventOfUserA : EventRec :=
  mkProcessingEvent "evt-a" "sess-a" (some "user-a") "dev-a" (some "clips/evt-a.webm")

/-- C2 fixture: the database user B queries. -/
def storeC2 : Store :=
  { sessions := [mkActiveSession "sess-a" "dev-a" (some "user-a")]
    events := [eventOfUserA]
    devices := []
    attempts := [] }

/-- C3 fixture: a database with one finalizable event. -/
def storeC3 : Store :=
  { sessions := [mkActiveSession "sess-3" "dev-3" (some "user-c")]
    events := [mkProcessingEvent "evt-3" "sess-3" (some "user-c") "dev-3" (some "clips/evt-3.webm")]
    devices := []
    attempts := [] }

/-- C4 fixture: a session of user D with two processing events and one
done event, plus a foreign session. -/
def storeC4 : Store :=
  { sessions := [mkActiveSession "sess-4" "dev-4" (some "user-d")]
    events :=
      [mkProcessingEvent "evt-41" "sess-4" (some "user-d") "dev-4" none,
       mkProcessingEvent "evt-42" "sess-4" (some "user-d") "dev-4" none,
       { mkProcessingEvent "evt-43" "sess-4" (some "user-d") "dev-4" none with
          status := "done" },
       mkProcessingEvent "evt-other" "sess-x" (some "user-x") "dev-x" none]
    devices := []
    attempts := [] }

/-- C4 fixture: two queued jobs of the session, one of another session,
one with a dict payload lacking session_id, one with a non-dict payload. -/
def jobsC4 : List Job :=
  [{ jobId := "job-1", payload := some (some "sess-4") },
   { jobId := "job-2", payload := some (some "sess-other") },
   { jobId := "job-3", payload := some (some "sess-4") },
   { jobId := "job-4", payload := some none },
   { jobId := "job-5", payload := none }]

/-- C5 fixture: an event whose stored blob name climbs out of the upload
root. -/
def storeC5 : Store :=
  { sessions := [mkActiveSession "sess-5" "dev-5" none]
    events := [mkProcessingEvent "evt-5" "sess-5" none "dev-5" (some "../../etc/passwd")]
    devices := []
    attempts := [] }

/-- C5 fixture: the resolved local upload root. -/
def rootC5 : List String := ["srv", "ping-watch", "uploads"]

/-- C6 fixture: a session and an event that already belongs to another
session. -/
def storeC6 : Store :=
  { sessions :=
      [mkActiveSession "sess-6" "dev-6" none,
       mkActiveSession "sess-6b" "dev-6" none]
    events := [mkProcessingEvent "evt-6" "sess-6b" none "dev-6" none]
    devices := []
    attempts := [] }

/-- C6 fixture: an initiate payload reusing the event id that belongs to
the other session. -/
def payloadC6 : InitiatePayload :=
  { eventId := some "evt-6"
    sessionId := "sess-6"
    deviceId := "dev-6"
    triggerType := "motion"
    durationSeconds := 2
    clipMime := "video/webm"
    clipSizeBytes := 12 }

/-- C6 fixture: an initiate payload with a fresh explicit event id. -/
def payloadC6A : InitiatePayload :=
  { eventId := some "evt-61"
    sessionId := "sess-6"
    deviceId := "dev-6"
    triggerType := "motion"
    durationSeconds := 2
    clipMime := "video/webm"
    clipSizeBytes := 12 }

/-- C7 fixture: a linked attempt and a pending attempt. -/
def storeC7 : Store :=
  { sessions := []
    events := []
    devices := [{ deviceId := "dev-7", userId := none, label := none,
                  telegramChatId := some "987", telegramUsername := none,
                  telegramLinkedAt := some 5, createdAt := 0 }]
    attempts :=
      [{ attemptId := "att-linked", deviceId := "dev-7", userId := none,
         tokenHash := "tok-linked", status := "linked", createdAt := 0,
         expiresAt := 100, linkedAt := some 5, chatId := some "987",
         telegramUsername := none },
       { attemptId := "att-pending", deviceId := "dev-7", userId := none,
         tokenHash := "tok-pending", status := "pending", createdAt := 0,
         expiresAt := 100, linkedAt := none, chatId := none,
         telegramUsername := none }] }

/-- C10 fixture: webhook environment with a bot token and no secret. -/
def cfgC10 : WebhookCfg := { botToken := "bot-token", webhookSecret := "" }

/-- C10 fixture: a store with a pending attempt that a well-formed
request could link. -/
def storeC10 : Store :=
  { sessions := []
    events := []
    devices := []
    attempts :=
      [{ attemptId := "att-10", deviceId := "dev-10", userId := none,
         tokenHash := "tok-10", status := "pending", createdAt := 0,
         expiresAt := 100, linkedAt := none, chatId := none,
         telegramUsername := none }] }

/-! ## Helper lemmas -/

/-- A per-row table update commutes with primary-key lookup when the
update preserves the predicate. -/
theorem findMapPred {α : Type} (g : α → α) (p : α → Bool)
    (hp : ∀ x, p (g x) = p x) (l : List α) :
    (l.map g).find? p = (l.find? p).map g := by
  induction l with
  | nil => rfl
  | cons x xs ih =>
    by_cases h : p x = true
    · rw [List.map_cons, List.find?_cons_of_pos _ (by rw [hp]; exact h),
        List.find?_cons_of_pos _ h, Option.map_some']
    · rw [List.map_cons, List.find?_cons_of_neg _ (by simp [hp, h]),
        List.find?_cons_of_neg _ (by simpa using h), ih]

/-- The unchanged attempt satisfies the step contract. -/
theorem attemptStepOk_refl (a : AttemptRec) (now : Nat) : attemptStepOk a a now := by
  refine ⟨fun _ => rfl, fun _ => rfl, fun _ => rfl, ?_, ?_⟩ <;>
    intro h1 h2 <;> rw [h1] at h2 <;> exact absurd h2 (by decide)

/-- Lazily expiring a pending attempt past its deadline satisfies the
step contract. -/
theorem attemptStepOk_expired_of_pending (a : AttemptRec) (n : Nat)
    (hp : a.status = "pending") (hlt : a.expiresAt < n) :
    attemptStepOk a { a with status := "expired" } n := by
  refine ⟨?_, ?_, ?_, ?_, ?_⟩
  · intro h; rw [hp] at h; exact absurd h (by decide)
  · intro h; rw [hp] at h; exact absurd h (by decide)
  · intro h; simp at h
  · intro _ h; simp at h
  · intro _ _; exact hlt

/-- Linking a pending attempt satisfies the step contract: the chat id is
recorded and `linked_at` stamped at the step's instant. -/
theorem attemptStepOk_linked_of_pending (a : AttemptRec) (chat : String)
    (usr : Option String) (n : Nat) (hp : a.status = "pending") :
    attemptStepOk a
      { a with status := "linked", linkedAt := some n, chatId := some chat,
               telegramUsername := usr } n := by
  refine ⟨?_, ?_, ?_, fun _ _ => ⟨rfl, rfl⟩, ?_⟩
  · intro h; rw [hp] at h; exact absurd h (by decide)
  · intro h; rw [hp] at h; exact absurd h (by decide)
  · intro h; simp at h
  · intro _ h; simp at h

/-- Row updates that keep the attempt id commute with lookup by id. -/
theorem findAttemptById_update (l : List AttemptRec) (tid k : String)
    (f : AttemptRec → AttemptRec) (hf : ∀ a, (f a).attemptId = a.attemptId) :
    findAttemptById (updateAttemptRows l tid f) k
      = (findAttemptById l k).map
          (fun a => if a.attemptId == tid then f a else a) := by
  unfold findAttemptById updateAttemptRows
  refine findMapPred _ _ (fun x => ?_) l
  by_cases h : x.attemptId == tid <;> simp [h, hf]

/-- Row updates that keep the session id commute with lookup by id. -/
theorem findSession_update (l : List SessionRec) (tid k : String)
    (f : SessionRec → SessionRec) (hf : ∀ x, (f x).sessionId = x.sessionId) :
    findSession (updateSessionRows l tid f) k
      = (findSession l k).map
          (fun x => if x.sessionId == tid then f x else x) := by
  unfold findSession updateSessionRows
  refine findMapPred _ _ (fun x => ?_) l
  by_cases h : x.sessionId == tid <;> simp [h, hf]

/-- With pairwise-distinct attempt ids, two member rows with the same id
coincide. -/
theorem attempt_eq_of_mem_ids (l : List AttemptRec)
    (hnd : (l.map (fun x => x.attemptId)).Nodup)
    {a b : AttemptRec} (ha : a ∈ l) (hb : b ∈ l)
    (hid : a.attemptId = b.attemptId) : a = b :=
  List.inj_on_of_nodup_map hnd ha hb hid

/-- `link_device_telegram_chat` touches only the devices table. -/
theorem linkDeviceTelegramChat_attempts (store : Store) (deviceId chatId : String)
    (username : Option String) (userId : Option String) (now : Nat) :
    (linkDeviceTelegramChat store deviceId chatId username userId now).attempts
      = store.attempts := by
  unfold linkDeviceTelegramChat
  cases findDevice store.devices deviceId <;> rfl

/-- The cancel loop splits the pending jobs into the kept non-matching
ones and the count of the canceled matching ones. -/
theorem cancelFold (sid : String) (jobs : List Job) :
    ∀ acc : List Job × Nat,
      jobs.foldl (cancelStep sid) acc
        = (acc.1 ++ jobs.filter (fun j => !(j.payload == some (some sid))),
           acc.2 + (jobs.filter (fun j => j.payload == some (some sid))).length) := by
  induction jobs with
  | nil => intro acc; simp
  | cons j js ih =>
    intro acc
    rw [List.foldl_cons, ih]
    cases hp : j.payload with
    | none => simp [cancelStep, hp]
    | some o =>
      cases o with
      | none => simp [cancelStep, hp]
      | some s =>
        by_cases hs : s = sid
        · subst hs
          simp [cancelStep, hp]
          omega
        · simp [cancelStep, hp, hs, List.append_assoc]

/-- `cancel_session_jobs` keeps exactly the non-matching pending jobs and
counts exactly the matching ones. -/
theorem cancelSessionJobs_spec (jobs : List Job) (sid : String) :
    (cancelSessionJobs jobs sid).1
        = jobs.filter (fun j => !(j.payload == some (some sid)))
    ∧ (cancelSessionJobs jobs sid).2
        = (jobs.filter (fun j => j.payload == some (some sid))).length := by
  unfold cancelSessionJobs
  rw [cancelFold]
  simp

/-- Looking a member row up by its own id finds it (given distinct ids). -/
theorem findAttemptById_self (l : List AttemptRec)
    (hnd : (l.map (fun x => x.attemptId)).Nodup) (att : AttemptRec)
    (hmem : att ∈ l) : findAttemptById l att.attemptId = some att := by
  have hsome : (l.find? (fun x => x.attemptId == att.attemptId)).isSome := by
    rw [List.find?_isSome]
    exact ⟨att, hmem, by simp⟩
  obtain ⟨b, hb⟩ := Option.isSome_iff_exists.mp hsome
  have hbMem := List.mem_of_find?_eq_some hb
  have hbId : b.attemptId = att.attemptId := by simpa using List.find?_some hb
  have hba : b = att := attempt_eq_of_mem_ids l hnd hbMem hmem hbId
  unfold findAttemptById
  rw [hb, hba]

/-- The lazy-expiry re-read leaves an attempt alone unless it is pending
and past its deadline. -/
theorem lazyExpire_noop (store : Store) (att : AttemptRec) (n : Nat)
    (h : ¬(att.status = "pending" ∧ att.expiresAt < n)) :
    lazyExpire store att n = (att, store) := by
  unfold lazyExpire
  rw [if_neg (fun hc => h (by simpa using hc))]

/-- The lazy-expiry re-read of a pending attempt past its deadline yields
the expired row and the expired store. -/
theorem lazyExpire_expires (store : Store) (att : AttemptRec) (n : Nat)
    (hnd : (store.attempts.map (fun x => x.attemptId)).Nodup)
    (hmem : att ∈ store.attempts) (hp : att.status = "pending")
    (hlt : att.expiresAt < n) :
    lazyExpire store att n
      = ({ att with status := "expired" },
         markTelegramLinkAttemptExpired store att.attemptId) := by
  unfold lazyExpire
  rw [if_pos (by simp [hp, hlt])]
  unfold markTelegramLinkAttemptExpired
  dsimp only
  rw [findAttemptById_update store.attempts att.attemptId att.attemptId
    (fun x => { x with status := "expired" }) (fun x => rfl),
    findAttemptById_self store.attempts hnd att hmem]
  simp

/-- After expiring the pending attempt `att`, the attempt looked up under
`k` satisfies the step contract. -/
theorem lookup_after_expire (store : Store) (k : String) (a att : AttemptRec)
    (n : Nat) (hnd : (store.attempts.map (fun x => x.attemptId)).Nodup)
    (ha : findAttemptById store.attempts k = some a)
    (hmem : att ∈ store.attempts) (hp : att.status = "pending")
    (hlt : att.expiresAt < n) :
    ∃ a', findAttemptById
        (markTelegramLinkAttemptExpired store att.attemptId).attempts k = some a'
      ∧ attemptStepOk a a' n := by
  have ha' : store.attempts.find? (fun x => x.attemptId == k) = some a := ha
  unfold markTelegramLinkAttemptExpired
  dsimp only
  rw [findAttemptById_update store.attempts att.attemptId k
    (fun x => { x with status := "expired" }) (fun x => rfl), ha]
  by_cases hid : (a.attemptId == att.attemptId) = true
  · have haeq : a = att := attempt_eq_of_mem_ids store.attempts hnd
      (List.mem_of_find?_eq_some ha') hmem (by simpa using hid)
    refine ⟨{ a with status := "expired" },
      by simp only [Option.map_some']; rw [if_pos hid], ?_⟩
    exact attemptStepOk_expired_of_pending a n (haeq ▸ hp) (haeq ▸ hlt)
  · exact ⟨a, by simp only [Option.map_some']; rw [if_neg hid],
      attemptStepOk_refl a n⟩

/-- After linking the pending attempt `att`, the attempt looked up under
`k` satisfies the step contract. -/
theorem lookup_after_link (store : Store) (k : String) (a att : AttemptRec)
    (chat : String) (usr : Option String) (n : Nat)
    (hnd : (store.attempts.map (fun x => x.attemptId)).Nodup)
    (ha : findAttemptById store.attempts k = some a)
    (hmem : att ∈ store.attempts) (hp : att.status = "pending") :
    ∃ a', findAttemptById
        (markTelegramLinkAttemptLinked store att.attemptId chat usr n).attempts k
        = some a'
      ∧ attemptStepOk a a' n := by
  have ha' : store.attempts.find? (fun x => x.attemptId == k) = some a := ha
  unfold markTelegramLinkAttemptLinked
  dsimp only
  rw [findAttemptById_update store.attempts att.attemptId k (fun x => { x with status := "linked", linkedAt := some n, chatId := some chat, telegramUsername := usr }) (fun x => rfl), ha]
  by_cases hid : (a.attemptId == att.attemptId) = true
  · have haeq : a = att := attempt_eq_of_mem_ids store.attempts hnd
      (List.mem_of_find?_eq_some ha') hmem (by simpa using hid)
    refine ⟨_, by simp only [Option.map_some']; rw [if_pos hid], ?_⟩
    exact attemptStepOk_linked_of_pending a chat usr n (haeq ▸ hp)
  · exact ⟨a, by simp only [Option.map_some']; rw [if_neg hid],
      attemptStepOk_refl a n⟩

/-- A successful `create_event` call with an explicit event id is stable:
repeating it against the returned database returns the same row and the
same database (no second row), at any later instant and with any fresh
id. -/
theorem createEvent_reuse (store : Store) (sid did tt : String) (ds : Int)
    (uri mime : String) (size : Int) (eid : String) (cc cbn : Option String)
    (uid : Option String) (now : Nat) (fid : String) (e : EventRec) (store₂ : Store)
    (h : createEvent store sid did tt ds uri mime size (some eid) cc cbn uid now fid
      = .ok (some (e, store₂)))
    (now' : Nat) (fid' : String) :
    createEvent store₂ sid did tt ds uri mime size (some eid) cc cbn uid now' fid'
      = .ok (some (e, store₂)) := by
  unfold createEvent at h
  cases hsde : findSession store.sessions sid with
  | none => rw [hsde] at h; simp at h
  | some session =>
    rw [hsde] at h
    by_cases hc1 : (uid.isSome && decide (session.userId ≠ uid)) = true
    · simp only [hc1, if_true] at h; simp at h
    · have hc1f : (uid.isSome && decide (session.userId ≠ uid)) = false := by
        simpa using hc1
      simp only [hc1f, Bool.false_eq_true, if_false] at h
      by_cases hdev : session.deviceId ≠ did
      · rw [if_pos hdev] at h; simp at h
      · rw [if_neg hdev] at h
        cases hee : findEvent store.events eid with
        | some ex =>
          rw [hee] at h
          dsimp only at h
          by_cases hex : ex.sessionId ≠ sid
          · rw [if_pos hex] at h; simp at h
          · rw [if_neg hex] at h
            simp only [Except.ok.injEq, Option.some.injEq, Prod.mk.injEq] at h
            obtain ⟨h1, h2⟩ := h
            subst h1
            subst h2
            unfold createEvent
            rw [hsde]
            simp only [hc1f, Bool.false_eq_true, if_false]
            rw [if_neg hdev, hee]
            dsimp only
            rw [if_neg hex]
        | none =>
          rw [hee] at h
          dsimp only at h
          simp only [Except.ok.injEq, Option.some.injEq, Prod.mk.injEq] at h
          obtain ⟨h1, h2⟩ := h
          subst h1
          subst h2
          unfold createEvent
          dsimp only
          rw [hsde]
          simp only [hc1f, Bool.false_eq_true, if_false]
          rw [if_neg hdev]
          have hfind : findEvent
              (store.events ++
                [{ eventId := (some eid).getD fid, sessionId := sid,
                   userId := session.userId, deviceId := did,
                   status := "processing", triggerType := tt, createdAt := now,
                   durationSeconds := ds, clipUri := uri, clipMime := mime,
                   clipSizeBytes := size, clipContainer := cc, clipBlobName := cbn,
                   clipUploadedAt := none, clipEtag := none, summary := none,
                   label := none, confidence := none, inferenceProvider := none,
                   inferenceModel := none, shouldNotify := none,
                   alertReason := none, matchedRules := none,
                   detectedEntities := none, detectedActions := none }]) eid
              = some
                { eventId := (some eid).getD fid, sessionId := sid,
                  userId := session.userId, deviceId := did,
                  status := "processing", triggerType := tt, createdAt := now,
                  durationSeconds := ds, clipUri := uri, clipMime := mime,
                  clipSizeBytes := size, clipContainer := cc, clipBlobName := cbn,
                  clipUploadedAt := none, clipEtag := none, summary := none,
                  label := none, confidence := none, inferenceProvider := none,
                  inferenceModel := none, shouldNotify := none,
                  alertReason := none, matchedRules := none,
                  detectedEntities := none, detectedActions := none } := by
            unfold findEvent at hee ⊢
            rw [List.find?_append, hee]
            simp [List.find?]
          rw [hfind]
          simp

/-- `create_event` refuses an event id already reserved by another
session: the call raises instead of touching the database. -/
theorem createEvent_cross_conflict (store : Store) (sid did tt : String)
    (ds : Int) (uri mime : String) (size : Int) (eid : String)
    (cc cbn : Option String) (now : Nat) (fid : String) (s : SessionRec)
    (e : EventRec)
    (hs : findSession store.sessions sid = some s)
    (hdev : s.deviceId = did)
    (he : findEvent store.events eid = some e)
    (hne : e.sessionId ≠ sid) :
    createEvent store sid did tt ds uri mime size (some eid) cc cbn none now fid
      = .error "event_id already exists for a different session" := by
  unfold createEvent
  rw [hs]
  simp only [Option.isSome_none, Bool.false_and, Bool.false_eq_true, if_false]
  rw [if_neg (by simp [hdev]), he]
  dsimp only
  rw [if_pos hne]

/-- Every field of the chosen upload target except the expiry is
independent of the request instant and the SAS expiry. -/
theorem initiateUploadInfo_stable (eventId blobName baseUrl : String)
    (cloud : Option CloudTarget) (sasQuery : String → String)
    (se n se' n' : Nat) :
    (initiateUploadInfo eventId blobName baseUrl cloud sasQuery se n).clipUri
        = (initiateUploadInfo eventId blobName baseUrl cloud sasQuery se' n').clipUri
    ∧ (initiateUploadInfo eventId blobName baseUrl cloud sasQuery se n).clipContainer
        = (initiateUploadInfo eventId blobName baseUrl cloud sasQuery se' n').clipContainer
    ∧ (initiateUploadInfo eventId blobName baseUrl cloud sasQuery se n).clipBlobName
        = (initiateUploadInfo eventId blobName baseUrl cloud sasQuery se' n').clipBlobName
    ∧ (initiateUploadInfo eventId blobName baseUrl cloud sasQuery se n).uploadUrl
        = (initiateUploadInfo eventId blobName baseUrl cloud sasQuery se' n').uploadUrl
    ∧ (initiateUploadInfo eventId blobName baseUrl cloud sasQuery se n).blobUrl
        = (initiateUploadInfo eventId blobName baseUrl cloud sasQuery se' n').blobUrl := by
  cases cloud <;> simp [initiateUploadInfo]

/-! ## C9 -/

/-- C9: in the shared-key string-to-sign built for container creation,
the string is the newline join of the canonical line list, and the 4th
line (the Content-Length position) is exactly the empty string when
`content_length = 0` and exactly the decimal representation of
`content_length` otherwise. -/
theorem sharedKeyStringToSign_contentLength_line (method : String)
    (contentLength : Int) (canonicalizedResource xMsDate xMsVersion : String) :
    buildSharedKeyStringToSign method contentLength canonicalizedResource
        xMsDate xMsVersion
      = String.intercalate "\n" (sharedKeyStringToSignLines method contentLength
          canonicalizedResource xMsDate xMsVersion)
    ∧ (sharedKeyStringToSignLines method contentLength canonicalizedResource
        xMsDate xMsVersion).get? 3
      = some (if contentLength = 0 then "" else toString contentLength) := by
  exact ⟨rfl, rfl⟩

/-! ## C8 -/

/-- C8 counterexample: `_normalize_video_mime` returns `video/avi` for
the input `video/avi`, which is not a member of
`SUPPORTED_VIDEO_MIME_TYPES`, so the result is not always in the
allowlist and out-of-allowlist input does not default to `video/webm`. -/
theorem normalizeVideoMime_not_allowlisted :
    normalizeVideoMime (some "video/avi") = "video/avi"
    ∧ supportedVideoMimeTypes.contains "video/avi" = false := by
  exact ⟨by decide, by decide⟩

/-- C8 amended: `_normalize_video_mime` strips any parameters after
the first `;`; when the stripped base MIME starts with `video/` it is
returned as-is (allowlisted or not), otherwise (including empty input)
the result defaults to `video/webm`; the result always starts with
`video/`. -/
theorem normalizeVideoMime_amended (clipMime : Option String) :
    (pyStartsWith (stripBaseMime clipMime) "video/" = true →
      normalizeVideoMime clipMime = stripBaseMime clipMime)
    ∧ (pyStartsWith (stripBaseMime clipMime) "video/" = false →
      normalizeVideoMime clipMime = "video/webm")
    ∧ pyStartsWith (normalizeVideoMime clipMime) "video/" = true := by
  by_cases hraw : pyLower (pyStrip (clipMime.getD "")) = ""
  · have hbase : stripBaseMime clipMime = "" := by
      simp only [stripBaseMime, hraw]
      decide
    have hres : normalizeVideoMime clipMime = "video/webm" := by
      simp [normalizeVideoMime, hraw]
    refine ⟨?_, fun _ => hres, by rw [hres]; decide⟩
    intro h
    rw [hbase] at h
    exact absurd h (by decide)
  · by_cases hmem : supportedVideoMimeTypes.contains (stripBaseMime clipMime) = true
    · have hstart : pyStartsWith (stripBaseMime clipMime) "video/" = true := by
        have hm := hmem
        simp only [supportedVideoMimeTypes, List.contains_cons,
          List.contains_nil, Bool.or_eq_true, beq_iff_eq] at hm
        rcases hm with h | h | h | h | h
        · rw [h]; decide
        · rw [h]; decide
        · rw [h]; decide
        · rw [h]; decide
        · exact absurd h (by simp)
      have hres : normalizeVideoMime clipMime = stripBaseMime clipMime := by
        simp only [normalizeVideoMime]
        rw [if_neg hraw, if_pos hmem]
      refine ⟨fun _ => hres, ?_, by rw [hres]; exact hstart⟩
      intro h
      rw [hstart] at h
      exact absurd h (by decide)
    · by_cases hstart : pyStartsWith (stripBaseMime clipMime) "video/" = true
      · have hres : normalizeVideoMime clipMime = stripBaseMime clipMime := by
          simp only [normalizeVideoMime]
          rw [if_neg hraw, if_neg hmem, if_pos hstart]
        refine ⟨fun _ => hres, ?_, by rw [hres]; exact hstart⟩
        intro h
        rw [hstart] at h
        exact absurd h (by decide)
      · have hstart1 : pyStartsWith (stripBaseMime clipMime) "video/" = false :=
          Bool.eq_false_iff.mpr (fun h => hstart h)
        have hres : normalizeVideoMime clipMime = "video/webm" := by
          simp only [normalizeVideoMime]
          rw [if_neg hraw, if_neg hmem, if_neg hstart]
        exact ⟨fun h => absurd h hstart, fun _ => hres, by rw [hres]; decide⟩

/-- C8 amended witness at a concrete parameterized input. -/
theorem normalizeVideoMime_amended_witness :
    normalizeVideoMime (some "video/webm;codecs=vp8,opus") = "video/webm" := by
  have h := (normalizeVideoMime_amended (some "video/webm;codecs=vp8,opus")).1
  exact (h (by decide)).trans (by decide)

/-! ## C5 -/

/-- C5: for a relay upload `PUT /events/{id}/upload`, if the event's
blob name, joined with the configured local upload root and
canonicalized, resolves outside that root then the request is rejected
with status 400 and no bytes are written; bytes are written only to a
path that is a descendant of the root (the root components lead the
resolved path). -/
theorem uploadClip_traversal_guard (root : List String) (store : Store)
    (eventId body : String) :
    (∀ record, getEvent store eventId none = some record →
      root.isPrefixOf (resolveJoin root (uploadBlobName record)) = false →
        (uploadClipEndpoint root store eventId body).status = 400 ∧
        (uploadClipEndpoint root store eventId body).writes = [])
    ∧ (∀ w ∈ (uploadClipEndpoint root store eventId body).writes,
        root.isPrefixOf w.1 = true) := by
  constructor
  · intro record hrec hesc
    unfold uploadClipEndpoint
    rw [hrec]
    simp only [hesc]
    exact ⟨rfl, rfl⟩
  · intro w hw
    unfold uploadClipEndpoint at hw
    cases hrec : getEvent store eventId none with
    | none =>
      rw [hrec] at hw
      simp at hw
    | some record =>
      rw [hrec] at hw
      by_cases hesc : root.isPrefixOf (resolveJoin root (uploadBlobName record)) = true
      · simp only [hesc, if_true] at hw
        cases hm : markEventClipUploadedViaLocalApi store eventId
            (uploadBlobName record) none with
        | none =>
          rw [hm] at hw
          simp only [List.mem_singleton] at hw
          rw [hw]
          exact hesc
        | some pair =>
          rw [hm] at hw
          simp only [List.mem_singleton] at hw
          rw [hw]
          exact hesc
      · have hesc' : root.isPrefixOf (resolveJoin root (uploadBlobName record)) = false :=
          Bool.eq_false_iff.mpr (fun h => hesc h)
        simp only [hesc'] at hw
        simp at hw

/-- C5 witness: an event whose stored blob name climbs two levels out of
the resolved root is rejected with 400 and zero writes. -/
theorem uploadClip_traversal_guard_witness :
    getEvent storeC5 "evt-5" none
        = some (mkProcessingEvent "evt-5" "sess-5" none "dev-5" (some "../../etc/passwd"))
    ∧ rootC5.isPrefixOf (resolveJoin rootC5
        (uploadBlobName (mkProcessingEvent "evt-5" "sess-5" none "dev-5"
          (some "../../etc/passwd")))) = false
    ∧ (uploadClipEndpoint rootC5 storeC5 "evt-5" "clip-bytes").status = 400
    ∧ (uploadClipEndpoint rootC5 storeC5 "evt-5" "clip-bytes").writes = [] := by
  have h := (uploadClip_traversal_guard rootC5 storeC5 "evt-5" "clip-bytes").1
    (mkProcessingEvent "evt-5" "sess-5" none "dev-5" (some "../../etc/passwd"))
    (by decide) (by decide)
  exact ⟨by decide, by decide, h.1, h.2⟩

/-! ## C10 -/

/-- C10: when the webhook secret check passes (or no secret is
configured), `POST /notifications/telegram/webhook` with a body that is
not valid JSON, not a JSON object, or without a `message`/`edited_message`
object returns HTTP 200 with ok=true and leaves the stored state
unchanged. -/
theorem telegramWebhook_malformed_noop (hashToken : String → String)
    (cfg : WebhookCfg) (req : WebhookRequest) (store : Store) (now : Nat)
    (hsecret : pyStrip cfg.webhookSecret = "" ∨
      pyStrip (req.secretHeader.getD "") = pyStrip cfg.webhookSecret)
    (hbody : webhookBodyMalformed req.body = true) :
    telegramWebhook hashToken cfg req store now = (.okTrue, store) := by
  have hbodyEq : webhookProcessBody hashToken store now req.body = (.okTrue, store) := by
    cases hb : req.body with
    | none => rfl
    | some payload =>
      rw [hb] at hbody
      cases payload with
      | obj fields =>
        have hmm : webhookMessageMissing
            (pyOr (objGet fields "message") (objGet fields "edited_message")) = true := hbody
        show webhookHandleMessageValue hashToken store now
          (pyOr (objGet fields "message") (objGet fields "edited_message")) = (.okTrue, store)
        cases hm : pyOr (objGet fields "message") (objGet fields "edited_message") with
        | none => rfl
        | some v =>
          cases v with
          | null => rfl
          | bool b => rfl
          | num n => rfl
          | str s => rfl
          | arr xs => rfl
          | obj message =>
            rw [hm] at hmm
            simp [webhookMessageMissing] at hmm
      | null => rfl
      | bool b => rfl
      | num n => rfl
      | str s => rfl
      | arr xs => rfl
  unfold telegramWebhook
  by_cases htok : pyStrip cfg.botToken = ""
  · rw [if_pos htok]
  · rw [if_neg htok]
    have hcond : (decide (pyStrip cfg.webhookSecret ≠ "") &&
        decide (pyStrip (req.secretHeader.getD "") ≠ pyStrip cfg.webhookSecret)) = false := by
      rcases hsecret with h | h
      · simp [h]
      · simp [h]
    simpa only [hcond, Bool.false_eq_true, if_false] using hbodyEq

/-- C10 witness: an invalid-JSON body with no secret configured is
acknowledged and changes nothing. -/
theorem telegramWebhook_malformed_noop_witness :
    pyStrip cfgC10.webhookSecret = ""
    ∧ webhookBodyMalformed (none : Option Json) = true
    ∧ telegramWebhook (fun s => s) cfgC10
        { secretHeader := none, body := none } storeC10 50 = (.okTrue, storeC10) := by
  refine ⟨by decide, by decide, ?_⟩
  exact telegramWebhook_malformed_noop (fun s => s) cfgC10
    { secretHeader := none, body := none } storeC10 50 (Or.inl (by decide)) (by decide)

/-! ## C1 -/

/-- C1 evaluation: with `AUTH_REQUIRED=true`,
`should_authenticate_request` demands authentication for the four write
endpoints named by the claim, yet the app dispatch (no auth middleware in
main.py, no auth call in the events handlers) processes each request
without a bearer token instead of rejecting it with 401: initiate answers
200, the relay upload answers 201 and writes the body to disk, finalize
runs (and mutates the event) without a 401, and the summary writeback
answers 200. -/
theorem unauthenticated_event_writes_not_rejected :
    shouldAuthenticateRequest true "POST" "/events/upload/initiate" = true
    ∧ shouldAuthenticateRequest true "PUT" "/events/evt-1/upload" = true
    ∧ shouldAuthenticateRequest true "POST" "/events/evt-1/upload/finalize" = true
    ∧ shouldAuthenticateRequest true "POST" "/events/evt-1/summary" = true
    ∧ (appPostEventsUploadInitiate (reqNoAuth "POST" "/events/upload/initiate")
        storeC1 payloadC1 "http://test/" none (fun _ => "sig") 900 2 "fresh-1").1.status
        = 200
    ∧ (appPutEventsUpload (reqNoAuth "PUT" "/events/evt-1/upload") rootC1 storeC1
        "evt-1" "clip-bytes").status = 201
    ∧ (appPutEventsUpload (reqNoAuth "PUT" "/events/evt-1/upload") rootC1 storeC1
        "evt-1" "clip-bytes").writes ≠ []
    ∧ (appPostEventsUploadFinalize (reqNoAuth "POST" "/events/evt-1/upload/finalize")
        storeC1 "evt-1" (some "etag-x") 3).1.status ≠ 401
    ∧ (appPostEventsSummary (reqNoAuth "POST" "/events/evt-1/summary") storeC1
        "evt-1" "a summary").1.status = 200 := by
  decide

/-! ## C2 -/

/-- C2 evaluation: `GET /events` ignores the caller entirely: for every
Authorization header (in particular user B's bearer), the handler returns
user A's event row, whose `user_id` is user A, not the caller. -/
theorem listEvents_returns_other_users_rows :
    (∀ auth : Option String,
      appGetEvents { method := "GET", path := "/events", authorization := auth }
        storeC2 (some "sess-a") = listEventsEndpoint storeC2 (some "sess-a"))
    ∧ listEventsEndpoint storeC2 (some "sess-a") = [eventOfUserA]
    ∧ eventOfUserA.userId = some "user-a" := by
  exact ⟨fun _ => rfl, by decide, by decide⟩

/-! ## C3 -/

/-- C3 evaluation: `finalize_upload_endpoint` passes the keyword
arguments `device_id` and `clip_mime` that `enqueue_inference_job` in
queue.py does not accept, so the call raises `TypeError` before the
callee's own try/except can swallow anything: the finalize request fails
(HTTP 500) after stamping `clip_uploaded_at`, instead of returning the
event row. -/
theorem finalize_enqueue_kwargs_mismatch :
    finalizeEnqueueKwargs.contains "device_id" = true
    ∧ enqueueInferenceJobParams.contains "device_id" = false
    ∧ kwargsBindOk finalizeEnqueueKwargs enqueueInferenceJobParams = false
    ∧ (finalizeUploadEndpoint storeC3 "evt-3" (some "etag-3") 9).1 = .typeError
    ∧ ((getEvent (finalizeUploadEndpoint storeC3 "evt-3" (some "etag-3") 9).2
        "evt-3" none).map (fun e => e.clipUploadedAt)) = some (some 9) := by
  decide

/-! ## C6 -/

/-- C6: `POST /events/upload/initiate` is idempotent on an explicit
event id — after a call that returned an event row and the database
`store₂`, repeating the call (at any later instant, with any fresh-id
draw) returns the same event row, the same upload and blob URLs, and
leaves `store₂` unchanged, so no second row is created — and when the
event id already belongs to a different session of an otherwise valid
request, the endpoint answers 409 Conflict with the database unchanged. -/
theorem initiate_idempotent_and_conflict :
    (∀ (store : Store) (payload : InitiatePayload) (baseUrl : String)
        (cloud : Option CloudTarget) (sasQuery : String → String)
        (sasExpiry now : Nat) (freshId : String) (sasExpiry' now' : Nat)
        (freshId' : String) (eid : String) (e : EventRec) (u b : String)
        (x : Nat) (store₂ : Store),
      payload.eventId = some eid → eid ≠ "" →
      initiateUploadEndpoint store payload baseUrl cloud sasQuery sasExpiry now freshId
        = (.ok e u b x, store₂) →
      ∃ x', initiateUploadEndpoint store₂ payload baseUrl cloud sasQuery sasExpiry'
          now' freshId' = (.ok e u b x', store₂))
    ∧ (∀ (store : Store) (payload : InitiatePayload) (baseUrl : String)
        (cloud : Option CloudTarget) (sasQuery : String → String)
        (sasExpiry now : Nat) (freshId : String) (eid : String) (s : SessionRec)
        (e : EventRec),
      payload.eventId = some eid → eid ≠ "" →
      findSession store.sessions payload.sessionId = some s →
      s.deviceId = payload.deviceId →
      findEvent store.events eid = some e →
      e.sessionId ≠ payload.sessionId →
      initiateUploadEndpoint store payload baseUrl cloud sasQuery sasExpiry now freshId
        = (.conflict, store)) := by
  constructor
  · intro store payload baseUrl cloud sasQuery sasExpiry now freshId sasExpiry' now'
      freshId' eid e u b x store₂ hpe hne h
    simp only [initiateUploadEndpoint, hpe] at h ⊢
    rw [if_neg hne] at h
    rw [if_neg hne]
    cases hce : createEvent store payload.sessionId payload.deviceId
        payload.triggerType payload.durationSeconds
        ((initiateUploadInfo eid
          (buildBlobName payload.sessionId eid payload.clipMime) baseUrl cloud
          sasQuery sasExpiry now).clipUri) payload.clipMime payload.clipSizeBytes
        (some eid)
        (some ((initiateUploadInfo eid
          (buildBlobName payload.sessionId eid payload.clipMime) baseUrl cloud
          sasQuery sasExpiry now).clipContainer))
        (some ((initiateUploadInfo eid
          (buildBlobName payload.sessionId eid payload.clipMime) baseUrl cloud
          sasQuery sasExpiry now).clipBlobName)) none now freshId with
    | error msg =>
      rw [hce] at h
      exact absurd h (by simp)
    | ok oval =>
      cases oval with
      | none =>
        rw [hce] at h
        exact absurd h (by simp)
      | some pr =>
        obtain ⟨rec, st⟩ := pr
        rw [hce] at h
        dsimp only at h
        simp only [Prod.mk.injEq, InitiateResult.ok.injEq] at h
        obtain ⟨⟨hrec, hu, hb, hx⟩, hst⟩ := h
        subst hrec
        subst hst
        obtain ⟨hcu, hcc, hcb, huu, hbu⟩ := initiateUploadInfo_stable eid
          (buildBlobName payload.sessionId eid payload.clipMime) baseUrl cloud
          sasQuery sasExpiry now sasExpiry' now'
        rw [← hcu, ← hcc, ← hcb]
        have hre := createEvent_reuse store payload.sessionId payload.deviceId
          payload.triggerType payload.durationSeconds
          ((initiateUploadInfo eid
            (buildBlobName payload.sessionId eid payload.clipMime) baseUrl cloud
            sasQuery sasExpiry now).clipUri) payload.clipMime payload.clipSizeBytes
          eid
          (some ((initiateUploadInfo eid
            (buildBlobName payload.sessionId eid payload.clipMime) baseUrl cloud
            sasQuery sasExpiry now).clipContainer))
          (some ((initiateUploadInfo eid
            (buildBlobName payload.sessionId eid payload.clipMime) baseUrl cloud
            sasQuery sasExpiry now).clipBlobName)) none now freshId rec st hce
          now' freshId'
        refine ⟨(initiateUploadInfo eid
          (buildBlobName payload.sessionId eid payload.clipMime) baseUrl cloud
          sasQuery sasExpiry' now').expiresAt, ?_⟩
        rw [hre]
        dsimp only
        rw [← hu, ← hb, ← huu, ← hbu]
  · intro store payload baseUrl cloud sasQuery sasExpiry now freshId eid s e hpe hne
      hs hdev he hnsess
    simp only [initiateUploadEndpoint, hpe]
    rw [if_neg hne]
    rw [createEvent_cross_conflict store payload.sessionId payload.deviceId
      payload.triggerType payload.durationSeconds _ payload.clipMime
      payload.clipSizeBytes eid _ _ now freshId s e hs hdev he hnsess]

/-- C6 witness: a fresh initiate followed by a repeat returns the same
row and database, and reusing the id reserved by the other session is a
409 with the database untouched. -/
theorem initiate_idempotent_and_conflict_witness :
    (∃ (e : EventRec) (u b : String) (x : Nat) (store₂ : Store),
      initiateUploadEndpoint storeC6 payloadC6A "http://test" none
          (fun _ => "q") 900 2 "f" = (.ok e u b x, store₂)
      ∧ ∃ x', initiateUploadEndpoint store₂ payloadC6A "http://test" none
          (fun _ => "q") 901 3 "g" = (.ok e u b x', store₂))
    ∧ initiateUploadEndpoint storeC6 payloadC6 "http://test" none
        (fun _ => "q") 900 2 "f" = (.conflict, storeC6) := by
  constructor
  · exact ⟨_, _, _, _, _, rfl,
      initiate_idempotent_and_conflict.1 storeC6 payloadC6A "http://test" none
        (fun _ => "q") 900 2 "f" 901 3 "g" "evt-61" _ _ _ _ _ rfl (by decide) rfl⟩
  · exact initiate_idempotent_and_conflict.2 storeC6 payloadC6 "http://test" none
      (fun _ => "q") 900 2 "f" "evt-6"
      (mkActiveSession "sess-6" "dev-6" none)
      (mkProcessingEvent "evt-6" "sess-6b" none "dev-6" none)
      rfl (by decide) (by decide) (by decide) (by decide) (by decide)

/-! ## C7 -/

/-- C7: TelegramLinkAttempt transitions are monotonic one-shot.  For
every link operation (processing a `/start <token>` message — webhook or
poll — or the status endpoint's lazy expiry), the attempt found under any
id afterwards satisfies: a linked or expired attempt is unchanged
(including replaying the token of an already-linked attempt), nothing
returns to pending, pending moves to linked only with a chat id recorded
and `linked_at` stamped at the operation instant, and pending moves to
expired only when the operation instant is past `expires_at`. -/
theorem linkAttempt_monotonic (hashToken : String → String) (store : Store)
    (op : LinkOp) (k : String) (a : AttemptRec)
    (hnd : (store.attempts.map (fun x => x.attemptId)).Nodup)
    (ha : findAttemptById store.attempts k = some a) :
    ∃ a', findAttemptById (stepLink hashToken store op).attempts k = some a'
      ∧ attemptStepOk a a' op.now := by
  cases op with
  | statusPoll d i n =>
    show ∃ a', findAttemptById (telegramLinkStatusStep store d i n).attempts k
      = some a' ∧ attemptStepOk a a' n
    unfold telegramLinkStatusStep
    cases hd : findDevice store.devices d with
    | none => exact ⟨a, ha, attemptStepOk_refl a n⟩
    | some dev =>
      dsimp only
      cases hA : findAttemptById store.attempts i with
      | none => exact ⟨a, ha, attemptStepOk_refl a n⟩
      | some att =>
        dsimp only
        by_cases h1 : att.deviceId ≠ d
        · rw [if_pos h1]
          exact ⟨a, ha, attemptStepOk_refl a n⟩
        · rw [if_neg h1]
          by_cases h2 : att.status = "linked"
          · rw [if_pos h2]
            exact ⟨a, ha, attemptStepOk_refl a n⟩
          · rw [if_neg h2]
            by_cases h3 : (decide (att.status = "pending")
                && decide (att.expiresAt < n)) = true
            · rw [if_pos h3]
              have h3p : att.status = "pending" ∧ att.expiresAt < n := by
                simpa using h3
              have hmem : att ∈ store.attempts := List.mem_of_find?_eq_some
                (show store.attempts.find? (fun x => x.attemptId == i) = some att
                  from hA)
              exact lookup_after_expire store k a att n hnd ha hmem h3p.1 h3p.2
            · rw [if_neg h3]
              exact ⟨a, ha, attemptStepOk_refl a n⟩
  | startToken tok chat usr n =>
    show ∃ a', findAttemptById
        (processStartToken hashToken store tok chat usr n).2.attempts k = some a'
      ∧ attemptStepOk a a' n
    unfold processStartToken
    cases hT : findAttemptByTokenHash store.attempts (hashToken tok) with
    | none => exact ⟨a, ha, attemptStepOk_refl a n⟩
    | some att =>
      dsimp only
      have hmem : att ∈ store.attempts := List.mem_of_find?_eq_some
        (show store.attempts.find? (fun x => x.tokenHash == hashToken tok)
          = some att from hT)
      by_cases hE : att.status = "pending" ∧ att.expiresAt < n
      · rw [lazyExpire_expires store att n hnd hmem hE.1 hE.2]
        dsimp only
        rw [if_neg (by simp), if_pos (by simp)]
        dsimp only
        exact lookup_after_expire store k a att n hnd ha hmem hE.1 hE.2
      · rw [lazyExpire_noop store att n hE]
        dsimp only
        by_cases h2 : att.status = "linked"
        · rw [if_pos h2]
          exact ⟨a, ha, attemptStepOk_refl a n⟩
        · rw [if_neg h2]
          by_cases h3 : att.status ≠ "pending"
          · rw [if_pos h3]
            exact ⟨a, ha, attemptStepOk_refl a n⟩
          · rw [if_neg h3]
            have hp : att.status = "pending" := not_not.mp h3
            dsimp only
            have hatts := linkDeviceTelegramChat_attempts store att.deviceId chat
              usr none n
            have hnd2 : ((linkDeviceTelegramChat store att.deviceId chat usr none
                n).attempts.map (fun x => x.attemptId)).Nodup := by
              rw [hatts]; exact hnd
            have ha2 : findAttemptById (linkDeviceTelegramChat store att.deviceId
                chat usr none n).attempts k = some a := by
              rw [hatts]; exact ha
            have hmem2 : att ∈ (linkDeviceTelegramChat store att.deviceId chat usr
                none n).attempts := by
              rw [hatts]; exact hmem
            exact lookup_after_link (linkDeviceTelegramChat store att.deviceId
              chat usr none n) k a att chat usr n hnd2 ha2 hmem2 hp

/-- C7 witness: replaying a `/start` message bearing the token of the
already-linked attempt leaves that attempt linked and unchanged. -/
theorem linkAttempt_monotonic_witness :
    ((storeC7.attempts.map (fun x => x.attemptId)).Nodup)
    ∧ findAttemptById storeC7.attempts "att-linked"
        = some { attemptId := "att-linked", deviceId := "dev-7", userId := none,
                 tokenHash := "tok-linked", status := "linked", createdAt := 0,
                 expiresAt := 100, linkedAt := some 5, chatId := some "987",
                 telegramUsername := none }
    ∧ ∃ a', findAttemptById
          (stepLink (fun s => s) storeC7
            (.startToken "tok-linked" "555" none 50)).attempts "att-linked"
          = some a'
        ∧ attemptStepOk
            { attemptId := "att-linked", deviceId := "dev-7", userId := none,
              tokenHash := "tok-linked", status := "linked", createdAt := 0,
              expiresAt := 100, linkedAt := some 5, chatId := some "987",
              telegramUsername := none }
            a' (LinkOp.startToken "tok-linked" "555" none 50).now := by
  refine ⟨by decide, by decide, ?_⟩
  exact linkAttempt_monotonic (fun s => s) storeC7
    (.startToken "tok-linked" "555" none 50) "att-linked"
    { attemptId := "att-linked", deviceId := "dev-7", userId := none,
      tokenHash := "tok-linked", status := "linked", createdAt := 0,
      expiresAt := 100, linkedAt := some 5, chatId := some "987",
      telegramUsername := none }
    (by decide) (by decide)

/-! ## C4 -/

/-- C4: after `POST /sessions/force-stop` by the session's owner, the
session is stopped with `stopped_at` set, no processing event of the
session remains (given the store invariant that a session's events carry
the session's user), every pending queue job whose payload names the
session has left the pending set, and the response reports the deleted
and canceled counts. -/
theorem forceStop_purges (store : Store) (jobs : List Job) (sessionId u : String)
    (now : Nat) (s : SessionRec)
    (hs : findSession store.sessions sessionId = some s)
    (hown : s.userId = some u)
    (hinv : ∀ e ∈ store.events, e.sessionId = sessionId → e.userId = some u) :
    ∃ rec : SessionRec,
      (forceStopSessionEndpoint store jobs sessionId (some u) now).1
          = .ok rec
              ((store.events.filter (fun e =>
                e.sessionId == sessionId && e.status == "processing")).length)
              ((jobs.filter (fun j => j.payload == some (some sessionId))).length)
        ∧ rec.status = "stopped" ∧ rec.stoppedAt = some now
        ∧ findSession
            (forceStopSessionEndpoint store jobs sessionId (some u) now).2.1.sessions
            sessionId = some rec
        ∧ (∀ e ∈ (forceStopSessionEndpoint store jobs sessionId (some u) now).2.1.events,
            ¬(e.sessionId = sessionId ∧ e.status = "processing"))
        ∧ (∀ j ∈ (forceStopSessionEndpoint store jobs sessionId (some u) now).2.2,
            j.payload ≠ some (some sessionId)) := by
  have hc : ((some u : Option String).isSome
      && decide ((some u : Option String) ≠ s.userId)) = false := by
    simp [hown]
  have hfs : forceStopSessionEndpoint store jobs sessionId (some u) now
      = (.ok { s with status := "stopped", stoppedAt := some now }
            ((store.events.filter (fun e =>
              e.sessionId == sessionId && e.status == "processing"
                && e.userId == some u)).length)
            ((cancelSessionJobs jobs sessionId).2),
         { store with
           sessions := updateSessionRows store.sessions sessionId
             (fun x => { x with status := "stopped", stoppedAt := some now }),
           events := store.events.filter (fun e =>
             !(e.sessionId == sessionId && e.status == "processing"
                && e.userId == some u)) },
         (cancelSessionJobs jobs sessionId).1) := by
    unfold forceStopSessionEndpoint stopSession deleteProcessingEventsForSession
    rw [hs]
    simp only [hc, Bool.false_eq_true, if_false]
  have hdel : store.events.filter (fun e =>
        e.sessionId == sessionId && e.status == "processing" && e.userId == some u)
      = store.events.filter (fun e =>
        e.sessionId == sessionId && e.status == "processing") := by
    refine List.filter_congr (fun e he => ?_)
    cases h1 : (e.sessionId == sessionId) with
    | false => simp [h1]
    | true =>
      cases h2 : (e.status == "processing") with
      | false => simp [h2]
      | true =>
        have hu : e.userId = some u := hinv e he (by simpa using h1)
        simp [hu]
  refine ⟨{ s with status := "stopped", stoppedAt := some now }, ?_, rfl, rfl, ?_, ?_, ?_⟩
  · rw [hfs]
    rw [hdel, (cancelSessionJobs_spec jobs sessionId).2]
  · rw [hfs]
    rw [findSession_update store.sessions sessionId sessionId
      (fun x => { x with status := "stopped", stoppedAt := some now })
      (fun x => rfl), hs]
    have hs1 : store.sessions.find? (fun x => x.sessionId == sessionId) = some s := hs
    have hbeq := List.find?_some hs1
    simp only [] at hbeq
    simp [hbeq]
    intro h
    exact absurd (by simpa using hbeq) h
  · rw [hfs]
    rintro e he ⟨h1, h2⟩
    have hmem := List.mem_filter.mp he
    have hu : e.userId = some u := hinv e hmem.1 h1
    simp [h1, h2, hu] at hmem
  · rw [hfs]
    rw [(cancelSessionJobs_spec jobs sessionId).1]
    intro j hj hcontra
    have hkeep := (List.mem_filter.mp hj).2
    simp [hcontra] at hkeep

/-- C4 witness: the concrete force-stop run deletes both processing
events of the session (the done event and the foreign event survive) and
cancels both matching pending jobs. -/
theorem forceStop_purges_witness :
    findSession storeC4.sessions "sess-4"
        = some (mkActiveSession "sess-4" "dev-4" (some "user-d"))
    ∧ (mkActiveSession "sess-4" "dev-4" (some "user-d")).userId = some "user-d"
    ∧ (∀ e ∈ storeC4.events, e.sessionId = "sess-4" → e.userId = some "user-d")
    ∧ ∃ rec : SessionRec,
        (forceStopSessionEndpoint storeC4 jobsC4 "sess-4" (some "user-d") 30).1
            = .ok rec
                ((storeC4.events.filter (fun e =>
                  e.sessionId == "sess-4" && e.status == "processing")).length)
                ((jobsC4.filter (fun j => j.payload == some (some "sess-4"))).length)
          ∧ rec.status = "stopped" ∧ rec.stoppedAt = some 30
          ∧ findSession
              (forceStopSessionEndpoint storeC4 jobsC4 "sess-4" (some "user-d") 30).2.1.sessions
              "sess-4" = some rec
          ∧ (∀ e ∈ (forceStopSessionEndpoint storeC4 jobsC4 "sess-4" (some "user-d") 30).2.1.events,
              ¬(e.sessionId = "sess-4" ∧ e.status = "processing"))
          ∧ (∀ j ∈ (forceStopSessionEndpoint storeC4 jobsC4 "sess-4" (some "user-d") 30).2.2,
              j.payload ≠ some (some "sess-4")) := by
  refine ⟨by decide, by decide, by decide, ?_⟩
  exact forceStop_purges storeC4 jobsC4 "sess-4" "user-d" 30
    (mkActiveSession "sess-4" "dev-4" (some "user-d"))
    (by decide) (by decide) (by decide)

end PingWatch
